import Mathlib

/-!
Verification development for the `tari-ledger` desktop client
(`src/desktop/src/main.rs`).  The Rust program is embedded shallowly:

* bytes are `Nat` (all literals are below 256);
* Rust's panicking operations (indexing, range slicing, `unwrap`, `expect`)
  are made explicit as `Except RtError` values whose error constructors
  record which panic fired;
* the external collaborators (HID transport, Blake2b-256, the Ristretto
  curve library and the borsh point encoding) are parameters of the model,
  collected in the `Crypto` and `Device` structures.

Names follow the Rust source where Lean allows it.
-/

/-- Little-endian encoding of `n` in exactly `w` bytes (`u64::to_le_bytes`
and the borsh `u32` length prefix). -/
def leBytes : Nat → Nat → List Nat
  | 0, _ => []
  | w + 1, n => n % 256 :: leBytes w (n / 256)

/-- The bytes of an ASCII string, used to relate parsed byte fields to the
string values the program prints. -/
def strBytes (s : String) : List Nat :=
  s.data.map Char.toNat

/-- Rust range slicing `&l[a..b]`: defined only when `a ≤ b ≤ l.length`;
out of range means an index panic at runtime. -/
def sliceRange (l : List Nat) (a b : Nat) : Option (List Nat) :=
  if a ≤ b ∧ b ≤ l.length then some ((l.drop a).take (b - a)) else none

/-- A UTF-8 continuation byte (`0x80..=0xBF`). -/
def isCont (b : Nat) : Bool :=
  0x80 ≤ b && b ≤ 0xBF

/-- Validity check of `std::str::from_utf8`: the RFC 3629 byte-level
automaton (shortest form, no surrogates, max `U+10FFFF`). -/
def utf8Valid : List Nat → Bool
  | [] => true
  | b :: r =>
    if b ≤ 0x7F then utf8Valid r
    else if b < 0xC2 then false
    else if b ≤ 0xDF then
      match r with
      | c1 :: r2 => isCont c1 && utf8Valid r2
      | [] => false
    else if b ≤ 0xEF then
      match r with
      | c1 :: c2 :: r3 =>
        (if b = 0xE0 then 0xA0 ≤ c1 && c1 ≤ 0xBF
         else if b = 0xED then 0x80 ≤ c1 && c1 ≤ 0x9F
         else isCont c1) && isCont c2 && utf8Valid r3
      | _ => false
    else if b ≤ 0xF4 then
      match r with
      | c1 :: c2 :: c3 :: r4 =>
        (if b = 0xF0 then 0x90 ≤ c1 && c1 ≤ 0xBF
         else if b = 0xF4 then 0x80 ≤ c1 && c1 ≤ 0x8F
         else isCont c1) && isCont c2 && isCont c3 && utf8Valid r4
      | _ => false
    else false

/-- Runtime outcomes of the embedded program.  The first five constructors
are the typed error kinds named by the specification; the remaining ones
record the panics the Rust code can actually raise. -/
inductive RtError where
  | deviceCommunicationError
  | malformedResponse
  | invalidEncoding
  | verificationFailed
  | unsupportedOperation
  | indexPanic
  | slicePanic
  | utf8Panic
  | transportPanic
  | decodePanic
  | expectPanic
  deriving DecidableEq, Repr

instance {ε α : Type} [DecidableEq ε] [DecidableEq α] :
    DecidableEq (Except ε α) := fun x y =>
  match x, y with
  | .ok a, .ok b =>
    if h : a = b then .isTrue (by rw [h])
    else .isFalse (by intro hc; cases hc; exact h rfl)
  | .ok _, .error _ => .isFalse (by intro hc; cases hc)
  | .error _, .ok _ => .isFalse (by intro hc; cases hc)
  | .error e, .error f =>
    if h : e = f then .isTrue (by rw [h])
    else .isFalse (by intro hc; cases hc; exact h rfl)

/-- `ledger_transport::APDUCommand` as built in `main`. -/
structure APDUCommand where
  cla : Nat
  ins : Nat
  p1 : Nat
  p2 : Nat
  data : List Nat
  deriving DecidableEq, Repr

/-- The GetInfo command (`command`, main.rs lines 34-40):
`cla 0x80, ins 0x01, data vec![0]`. -/
def getInfoCommand : APDUCommand :=
  ⟨0x80, 0x01, 0x00, 0x00, [0]⟩

/-- The Authenticate command (`command2`, lines 64-70): the payload is the
challenge scalar's 32 bytes. -/
def authenticateCommand (challenge : List Nat) : APDUCommand :=
  ⟨0x80, 0x02, 0x00, 0x00, challenge⟩

/-- The Commit command (`command3`, lines 101-107): the payload is the
little-endian `u64` encoding of the hardcoded value 60. -/
def commitCommand : APDUCommand :=
  ⟨0x80, 0x03, 0x00, 0x00, leBytes 8 60⟩

/-- The Terminate command (`command5`, lines 115-121). -/
def terminateCommand : APDUCommand :=
  ⟨0x80, 0x04, 0x00, 0x00, [0]⟩

/-- The GetInfo response handling of main.rs lines 52-59, reading from
`result.data()`.  Every step that can panic in Rust is explicit:
`data()[1]` and `data()[dataLen + 2]` index, the two range slices, and the
two `from_utf8(..).unwrap()` calls.  Returns the raw name and package
bytes on success. -/
def parseGetInfo (data : List Nat) : Except RtError (List Nat × List Nat) :=
  match data.get? 1 with
  | none => .error .indexPanic
  | some dataLen =>
    match sliceRange data 2 (dataLen + 2) with
    | none => .error .slicePanic
    | some nameBytes =>
      if utf8Valid nameBytes then
        match data.get? (dataLen + 2) with
        | none => .error .indexPanic
        | some packageLen =>
          match sliceRange data (dataLen + 3) (dataLen + packageLen + 3) with
          | none => .error .slicePanic
          | some packageBytes =>
            if utf8Valid packageBytes then .ok (nameBytes, packageBytes)
            else .error .utf8Panic
      else .error .utf8Panic

/-- The `WriteHashWrapper` byte sink (main.rs lines 172-183).  A `Blake256`
digest state is modelled by the byte stream absorbed so far; `update`
appends.  `write` feeds the whole buffer to the digest and reports the
buffer's length; `flush` does nothing.  Both always succeed, mirroring the
`Ok(..)` the Rust impl returns unconditionally. -/
def WriteHashWrapper.write (digestState buf : List Nat) :
    Except RtError (List Nat × Nat) :=
  .ok (digestState ++ buf, buf.length)

/-- `flush` of `WriteHashWrapper` (line 181): unconditionally `Ok(())`. -/
def WriteHashWrapper.flush (_digestState : List Nat) : Except RtError Unit :=
  .ok ()

/-- Run a borsh serializer through the `Write` sink: a serializer is the
sequence of buffers it writes (`BorshSerialize::serialize` makes a series
of `write` calls).  Stops at the first failing write. -/
def runWrites (digestState : List Nat) : List (List Nat) → Except RtError (List Nat)
  | [] => .ok digestState
  | buf :: rest =>
    match WriteHashWrapper.write digestState buf with
    | .ok (st, _) => runWrites st rest
    | .error e => .error e

/-- `ConsensusHasher<Blake256>` (main.rs lines 141-170).  The external
Blake2b-256 compression is abstracted as the `hash` field, a function from
the absorbed byte stream to the digest; `writer` is the `WriteHashWrapper`
digest state, i.e. the bytes absorbed so far. -/
structure ConsensusHasher where
  hash : List Nat → List Nat
  writer : List Nat

/-- `ConsensusHasher::from_digest` (lines 147-151). -/
def ConsensusHasher.from_digest (hash : List Nat → List Nat)
    (digestState : List Nat) : ConsensusHasher :=
  ⟨hash, digestState⟩

/-- `ConsensusHasher::finalize` (lines 157-159): apply the underlying hash
to the absorbed stream. -/
def ConsensusHasher.finalize (h : ConsensusHasher) : List Nat :=
  h.hash h.writer

/-- `ConsensusHasher::update_consensus_encode` (lines 161-164): serialize
`data` (given as the buffers its borsh serializer writes) into the writer;
the `.expect(..)` branch on a failed serialization is the `expectPanic`
error. -/
def ConsensusHasher.update_consensus_encode (h : ConsensusHasher)
    (chunks : List (List Nat)) : Except RtError ConsensusHasher :=
  match runWrites h.writer chunks with
  | .ok st => .ok { h with writer := st }
  | .error _ => .error .expectPanic

/-- `ConsensusHasher::chain` (lines 166-169).  Since every write succeeds
(see the claim-10 theorem), chaining appends the serialized bytes to the
absorbed stream. -/
def ConsensusHasher.chain (h : ConsensusHasher) (chunks : List (List Nat)) :
    ConsensusHasher :=
  { h with writer := h.writer ++ chunks.flatten }

/-- Modelled from the spec: `M::add_domain_separation_tag` comes from the
external `tari_crypto` crate; the spec says construction seeds the hash
with a fixed domain-separation prefix derived deterministically from
`(domainTag, label)`.  Modelled as the byte string
`len_le64(tagString) ++ tagString` with
`tagString = domain ++ ".v" ++ version ++ "." ++ label`, following
`DomainSeparation::domain_separation_tag`. -/
def domainSeparationTag (domain : String) (version : Nat) (label : String) :
    List Nat :=
  let tagString := strBytes domain ++ strBytes ".v" ++ strBytes (Nat.repr version)
    ++ strBytes "." ++ strBytes label
  leBytes 8 tagString.length ++ tagString

/-- `hash_domain!(TransactionHashDomain, "com.tari.base_layer.core.transactions", 0)`
(main.rs line 31). -/
def TransactionHashDomain.tag (label : String) : List Nat :=
  domainSeparationTag "com.tari.base_layer.core.transactions" 0 label

/-- `DomainSeparatedConsensusHasher::<M>::new` (main.rs lines 131-138):
start a fresh digest, absorb `M`'s domain-separation tag for `label`, and
wrap the result in a `ConsensusHasher`. -/
def DomainSeparatedConsensusHasher.new (hash : List Nat → List Nat)
    (label : String) : ConsensusHasher :=
  ConsensusHasher.from_digest hash (TransactionHashDomain.tag label)

/-- The external cryptographic collaborators of `main`, abstracted as
functions: the Blake2b-256 hash over the absorbed stream, the borsh
serializer of a Ristretto public key (the buffers it writes), the
canonical-decoding checks behind `RistrettoPublicKey::from_bytes`,
`RistrettoSecretKey::from_bytes` and `PedersenCommitment::from_bytes`, and
the Schnorr verification equation `signature.verify(&public_key, &e)`
taking the public key bytes, the digest scalar bytes, the nonce bytes and
the signature scalar bytes. -/
structure Crypto where
  hash : List Nat → List Nat
  encPoint : List Nat → List (List Nat)
  pkCanonical : List Nat → Bool
  skCanonical : List Nat → Bool
  commitCanonical : List Nat → Bool
  verify : List Nat → List Nat → List Nat → List Nat → Bool

/-- The device as seen through the transport: the `data()` bytes of the
reply to each of the four exchanges, or a transport error.  The transport
itself (`TransportNativeHID`) is an external collaborator. -/
structure Device where
  getInfoResp : Except Unit (List Nat)
  authResp : Except Unit (List Nat)
  commitResp : Except Unit (List Nat)
  terminateResp : Except Unit (List Nat)

/-- The digest computed in main.rs lines 85-89:
`DomainSeparatedConsensusHasher::<TransactionHashDomain>::new("script_challenge")
  .chain(&public_key).chain(&nonce).chain(&challenge_bytes).finalize()`.
The challenge is a `[u8; 32]`, whose borsh serialization is its raw
bytes. -/
def authDigest (c : Crypto) (pkBytes nonceBytes challengeBytes : List Nat) :
    List Nat :=
  ((((DomainSeparatedConsensusHasher.new c.hash "script_challenge").chain
      (c.encPoint pkBytes)).chain
      (c.encPoint nonceBytes)).chain
      [challengeBytes]).finalize

/-- The observable outcome of one run of `main`: the early `return` after
a failed GetInfo exchange, a panic, or reaching the end of `main` having
printed the Schnorr verification boolean. -/
inductive Outcome where
  | earlyReturn
  | panicked (e : RtError)
  | finished (verified : Bool)
  deriving DecidableEq, Repr

/-- A run's trace: the commands handed to the transport, in order, and the
outcome. -/
structure RunTrace where
  sent : List APDUCommand
  outcome : Outcome
  deriving DecidableEq, Repr

/-- The whole of `main` (main.rs lines 33-127) as a function of the
external collaborators and the random challenge bytes.  Every `unwrap`,
index and slice is explicit; the Schnorr verification result is only
printed (line 96), never branched on. -/
def mainRun (c : Crypto) (d : Device) (challenge : List Nat) : RunTrace :=
  match d.getInfoResp with
  | .error _ => ⟨[getInfoCommand], .earlyReturn⟩
  | .ok info =>
    match parseGetInfo info with
    | .error e => ⟨[getInfoCommand], .panicked e⟩
    | .ok _ =>
      let sent2 := [getInfoCommand, authenticateCommand challenge]
      match d.authResp with
      | .error _ => ⟨sent2, .panicked .transportPanic⟩
      | .ok r2 =>
        match sliceRange r2 1 33 with
        | none => ⟨sent2, .panicked .slicePanic⟩
        | some pkBytes =>
          if c.pkCanonical pkBytes then
            match sliceRange r2 33 65 with
            | none => ⟨sent2, .panicked .slicePanic⟩
            | some sigBytes =>
              if c.skCanonical sigBytes then
                match sliceRange r2 65 97 with
                | none => ⟨sent2, .panicked .slicePanic⟩
                | some nonceBytes =>
                  if c.pkCanonical nonceBytes then
                    if challenge.length = 32 then
                      let digest := authDigest c pkBytes nonceBytes challenge
                      if c.skCanonical digest then
                        let verified := c.verify pkBytes digest nonceBytes sigBytes
                        let sent3 := sent2 ++ [commitCommand]
                        match d.commitResp with
                        | .error _ => ⟨sent3, .panicked .transportPanic⟩
                        | .ok r3 =>
                          match sliceRange r3 1 33 with
                          | none => ⟨sent3, .panicked .slicePanic⟩
                          | some commitmentBytes =>
                            if c.commitCanonical commitmentBytes then
                              ⟨sent3 ++ [terminateCommand], .finished verified⟩
                            else ⟨sent3, .panicked .decodePanic⟩
                      else ⟨sent2, .panicked .decodePanic⟩
                    else ⟨sent2, .panicked .slicePanic⟩
                  else ⟨sent2, .panicked .decodePanic⟩
              else ⟨sent2, .panicked .decodePanic⟩
          else ⟨sent2, .panicked .decodePanic⟩

/-- Modelled from the spec: `PedersenCommitment::from_bytes` lives in the
external `tari_crypto`/`curve25519-dalek` libraries.  The spec's contract
is structural: a commitment is a point with exactly one canonical 32-byte
encoding, and `decode` validates the length and canonicity before
producing a value.  The canonicity predicate `canonical` is kept abstract
(a parameter); a `PedersenCommitment` is a byte string the predicate
accepts. -/
def PedersenCommitment (canonical : List Nat → Bool) : Type :=
  { bs : List Nat // canonical bs = true }

/-- Modelled from the spec: the canonical 32-byte encoding of a
commitment point (`as_bytes`) — the bytes it was decoded from. -/
def encodeCommitment {canonical : List Nat → Bool}
    (p : PedersenCommitment canonical) : List Nat :=
  p.val

/-- Modelled from the spec: `CommitmentDecoder.decode` — validate
canonicity (which subsumes the exact 32-byte length) and return the
commitment, or an `invalidEncoding` error. -/
def decodeCommitment (canonical : List Nat → Bool) (bs : List Nat) :
    Except RtError (PedersenCommitment canonical) :=
  if h : canonical bs = true then .ok ⟨bs, h⟩ else .error .invalidEncoding

/-- Running `new`, a fold of `chain`, then `finalize`: the full hasher
API sequence over a list of chained values (each value given as its borsh
write buffers). -/
def runHasher (hash : List Nat → List Nat) (label : String)
    (values : List (List (List Nat))) : List Nat :=
  (values.foldl ConsensusHasher.chain
    (DomainSeparatedConsensusHasher.new hash label)).finalize

/-- Concrete stand-in for the external collaborators, used to instantiate
the parametric theorems: the hash is a constant 32-byte digest, the point
encoder is length-prefixed, every decode succeeds and Schnorr
verification always reports `false`. -/
def cryptoEx : Crypto where
  hash := fun _ => List.replicate 32 0
  encPoint := fun p => [leBytes 4 p.length, p]
  pkCanonical := fun _ => true
  skCanonical := fun _ => true
  commitCanonical := fun _ => true
  verify := fun _ _ _ _ => false

/-- The GetInfo reply bytes of the spec's crafted example. -/
def infoRespEx : List Nat :=
  [0x00, 0x04, 0x54, 0x65, 0x73, 0x74, 0x03, 0x31, 0x2e, 0x30]

/-- A device whose replies are all well-formed: a valid GetInfo reply, a
97-byte Authenticate reply and a 33-byte Commit reply. -/
def deviceEx : Device where
  getInfoResp := .ok infoRespEx
  authResp := .ok (List.replicate 97 1)
  commitResp := .ok (List.replicate 33 2)
  terminateResp := .ok []

/-- A device whose GetInfo reply declares a 1-byte name `0xFF`, which is
not valid UTF-8. -/
def deviceBadUtf8 : Device where
  getInfoResp := .ok [0x00, 0x01, 0xFF]
  authResp := .ok []
  commitResp := .ok []
  terminateResp := .ok []

/-- A device that replies to GetInfo but fails the Authenticate
exchange at the transport level. -/
def deviceAuthErr : Device where
  getInfoResp := .ok infoRespEx
  authResp := .error ()
  commitResp := .ok []
  terminateResp := .ok []

/-- A device that answers GetInfo and Authenticate but fails the Commit
exchange at the transport level. -/
def deviceCommitErr : Device where
  getInfoResp := .ok infoRespEx
  authResp := .ok (List.replicate 97 1)
  commitResp := .error ()
  terminateResp := .ok []

/-- Collaborators whose public-key decoding always rejects, standing for
a device reply whose key bytes are non-canonical. -/
def cryptoNoDecode : Crypto :=
  { cryptoEx with pkCanonical := fun _ => false }

/-- A fixed 32-byte challenge. -/
def challengeEx : List Nat := List.replicate 32 9

/-- A concrete canonicity predicate for the commitment model: exactly one
32-byte string is canonical. -/
def canonicalEx : List Nat → Bool := fun bs => bs == List.replicate 32 0

/-- The commitment whose canonical encoding `canonicalEx` accepts. -/
def commitmentEx : PedersenCommitment canonicalEx :=
  ⟨List.replicate 32 0, by decide⟩

/-- Helper: a fold of `chain` never changes the underlying hash
function. -/
theorem foldl_chain_hash (vs : List (List (List Nat))) (h0 : ConsensusHasher) :
    (vs.foldl ConsensusHasher.chain h0).hash = h0.hash := by
  induction vs generalizing h0 with
  | nil => rfl
  | cons v t ih =>
    simpa [List.foldl, ConsensusHasher.chain] using ih { h0 with
      writer := h0.writer ++ v.flatten }

/-- Helper: running a serializer's writes through the sink always
succeeds and absorbs the concatenation of the buffers. -/
theorem runWrites_ok (chunks : List (List Nat)) (st : List Nat) :
    runWrites st chunks = .ok (st ++ chunks.flatten) := by
  induction chunks generalizing st with
  | nil => simp [runWrites]
  | cons b t ih =>
    simp [runWrites, WriteHashWrapper.write, ih, List.append_assoc]

/-- Claim C6: parsing the GetInfo response bytes
`[0x00, 0x04, 'T','e','s','t', 0x03, '1','.','0']` yields the name
`"Test"` and the package string `"1.0"`. -/
theorem parseGetInfo_crafted_example :
    parseGetInfo [0x00, 0x04, 0x54, 0x65, 0x73, 0x74, 0x03, 0x31, 0x2e, 0x30]
      = .ok (strBytes "Test", strBytes "1.0") := by rfl

/-- Claim C10: the hasher's byte sink is total — `write` absorbs the whole
buffer and returns `Ok` of its length, `flush` returns `Ok`, and
serializing any value in `update_consensus_encode` succeeds, never
reaching the `expect` branch. -/
theorem write_sink_total (digestState buf : List Nat) (h : ConsensusHasher)
    (chunks : List (List Nat)) :
    WriteHashWrapper.write digestState buf = .ok (digestState ++ buf, buf.length)
    ∧ WriteHashWrapper.flush digestState = .ok ()
    ∧ ConsensusHasher.update_consensus_encode h chunks = .ok (h.chain chunks)
    ∧ ∀ e, ConsensusHasher.update_consensus_encode h chunks ≠ .error e := by
  have hu : ConsensusHasher.update_consensus_encode h chunks = .ok (h.chain chunks) := by
    unfold ConsensusHasher.update_consensus_encode
    rw [runWrites_ok]
    rfl
  exact ⟨rfl, rfl, hu, fun e he => by rw [hu] at he; exact Except.noConfusion he⟩

/-- Claim C4: the digest checked during authentication is the
domain-separated hash seeded from the domain tag and the label
`"script_challenge"`, chained over exactly the three values public key,
nonce and 32-byte challenge, in that order, and finalized to 32 bytes
whenever the underlying hash emits 32 bytes. -/
theorem authDigest_is_domain_separated_hash (c : Crypto)
    (pkBytes nonceBytes challengeBytes : List Nat)
    (h32 : ∀ s, (c.hash s).length = 32) :
    authDigest c pkBytes nonceBytes challengeBytes
      = c.hash (TransactionHashDomain.tag "script_challenge"
          ++ (c.encPoint pkBytes).flatten
          ++ (c.encPoint nonceBytes).flatten
          ++ challengeBytes)
    ∧ (authDigest c pkBytes nonceBytes challengeBytes).length = 32 := by
  have h1 : authDigest c pkBytes nonceBytes challengeBytes
      = c.hash (TransactionHashDomain.tag "script_challenge"
          ++ (c.encPoint pkBytes).flatten
          ++ (c.encPoint nonceBytes).flatten
          ++ challengeBytes) := by
    simp [authDigest, DomainSeparatedConsensusHasher.new,
      ConsensusHasher.from_digest, ConsensusHasher.chain,
      ConsensusHasher.finalize, List.append_assoc]
  exact ⟨h1, by rw [h1]; exact h32 _⟩

/-- Witness for claim C4 at the concrete collaborators `cryptoEx`. -/
theorem authDigest_is_domain_separated_hash_witness :
    (∀ s, (cryptoEx.hash s).length = 32)
    ∧ (authDigest cryptoEx (List.replicate 32 3) (List.replicate 32 4) challengeEx
        = cryptoEx.hash (TransactionHashDomain.tag "script_challenge"
            ++ (cryptoEx.encPoint (List.replicate 32 3)).flatten
            ++ (cryptoEx.encPoint (List.replicate 32 4)).flatten
            ++ challengeEx)
      ∧ (authDigest cryptoEx (List.replicate 32 3) (List.replicate 32 4)
          challengeEx).length = 32) :=
  ⟨fun _ => rfl,
    authDigest_is_domain_separated_hash cryptoEx (List.replicate 32 3)
      (List.replicate 32 4) challengeEx (fun _ => rfl)⟩

/-- Claim C9: the 32 bytes sent as the Authenticate command's payload are
exactly the bytes chained as the third value into the digest
recomputation. -/
theorem auth_payload_equals_hashed_challenge (c : Crypto)
    (pkBytes nonceBytes challenge : List Nat) (h : challenge.length = 32) :
    (authenticateCommand challenge).data = challenge
    ∧ (authenticateCommand challenge).data.length = 32
    ∧ authDigest c pkBytes nonceBytes challenge
      = ((((DomainSeparatedConsensusHasher.new c.hash "script_challenge").chain
          (c.encPoint pkBytes)).chain (c.encPoint nonceBytes)).chain
          [(authenticateCommand challenge).data]).finalize :=
  ⟨rfl, h, rfl⟩

/-- Witness for claim C9 at the fixed 32-byte challenge `challengeEx`. -/
theorem auth_payload_equals_hashed_challenge_witness :
    challengeEx.length = 32
    ∧ ((authenticateCommand challengeEx).data = challengeEx
      ∧ (authenticateCommand challengeEx).data.length = 32
      ∧ authDigest cryptoEx (List.replicate 32 3) (List.replicate 32 4) challengeEx
        = ((((DomainSeparatedConsensusHasher.new cryptoEx.hash
            "script_challenge").chain
            (cryptoEx.encPoint (List.replicate 32 3))).chain
            (cryptoEx.encPoint (List.replicate 32 4))).chain
            [(authenticateCommand challengeEx).data]).finalize) :=
  ⟨by decide,
    auth_payload_equals_hashed_challenge cryptoEx (List.replicate 32 3)
      (List.replicate 32 4) challengeEx (by decide)⟩

/-- Claim C7: the domain hasher is deterministic — two `new`/`chain`/
`finalize` evaluations over identical hash function, label and chained
values produce the identical digest, of 32 bytes whenever the underlying
hash emits 32 bytes. -/
theorem runHasher_deterministic (hash1 hash2 : List Nat → List Nat)
    (label1 label2 : String) (vs1 vs2 : List (List (List Nat)))
    (hh : hash1 = hash2) (hl : label1 = label2) (hv : vs1 = vs2)
    (h32 : ∀ s, (hash1 s).length = 32) :
    runHasher hash1 label1 vs1 = runHasher hash2 label2 vs2
    ∧ (runHasher hash1 label1 vs1).length = 32 := by
  subst hh
  subst hl
  subst hv
  refine ⟨rfl, ?_⟩
  have h1 : runHasher hash1 label1 vs1
      = hash1 ((vs1.foldl ConsensusHasher.chain
          (DomainSeparatedConsensusHasher.new hash1 label1)).writer) := by
    unfold runHasher ConsensusHasher.finalize
    rw [foldl_chain_hash]
    rfl
  rw [h1]
  exact h32 _

/-- Witness for claim C7 at concrete inputs. -/
theorem runHasher_deterministic_witness :
    (∀ s, ((fun _ : List Nat => List.replicate 32 0) s).length = 32)
    ∧ (runHasher (fun _ => List.replicate 32 0) "script_challenge" [[[1, 2, 3]]]
        = runHasher (fun _ => List.replicate 32 0) "script_challenge" [[[1, 2, 3]]]
      ∧ (runHasher (fun _ => List.replicate 32 0) "script_challenge"
          [[[1, 2, 3]]]).length = 32) :=
  ⟨fun _ => rfl,
    runHasher_deterministic (fun _ => List.replicate 32 0)
      (fun _ => List.replicate 32 0) "script_challenge" "script_challenge"
      [[[1, 2, 3]]] [[[1, 2, 3]]] rfl rfl rfl (fun _ => rfl)⟩

/-- Claim C8 (spec-modelled): commitment decoding is a left-inverse of
canonical point encoding — decoding a commitment's canonical encoding
returns that commitment, so re-encoding returns the original bytes;
decoding input of the wrong length or a non-canonical encoding returns an
error and never a value. -/
theorem decodeCommitment_left_inverse (canonical : List Nat → Bool)
    (hlen : ∀ bs, canonical bs = true → bs.length = 32)
    (p : PedersenCommitment canonical) :
    decodeCommitment canonical (encodeCommitment p) = .ok p
    ∧ (∀ q, decodeCommitment canonical (encodeCommitment p) = .ok q →
        encodeCommitment q = encodeCommitment p)
    ∧ (∀ bs, bs.length ≠ 32 →
        decodeCommitment canonical bs = .error .invalidEncoding)
    ∧ (∀ bs, canonical bs = false →
        decodeCommitment canonical bs = .error .invalidEncoding) := by
  have hdec : decodeCommitment canonical (encodeCommitment p) = .ok p := by
    unfold decodeCommitment encodeCommitment
    rw [dif_pos p.property]
    rfl
  refine ⟨hdec, ?_, ?_, ?_⟩
  · intro q hq
    rw [hdec] at hq
    cases hq
    rfl
  · intro bs hbs
    unfold decodeCommitment
    rw [dif_neg]
    intro hc
    exact hbs (hlen bs hc)
  · intro bs hbs
    unfold decodeCommitment
    rw [dif_neg]
    simp [hbs]

/-- Witness for claim C8 at the concrete canonicity predicate
`canonicalEx` and the commitment `commitmentEx`. -/
theorem decodeCommitment_left_inverse_witness :
    (∀ bs, canonicalEx bs = true → bs.length = 32)
    ∧ (decodeCommitment canonicalEx (encodeCommitment commitmentEx)
        = .ok commitmentEx
      ∧ (∀ q, decodeCommitment canonicalEx (encodeCommitment commitmentEx)
          = .ok q → encodeCommitment q = encodeCommitment commitmentEx)
      ∧ (∀ bs, bs.length ≠ 32 →
          decodeCommitment canonicalEx bs = .error .invalidEncoding)
      ∧ (∀ bs, canonicalEx bs = false →
          decodeCommitment canonicalEx bs = .error .invalidEncoding)) := by
  have hlen : ∀ bs, canonicalEx bs = true → bs.length = 32 := by
    intro bs hbs
    have : bs = List.replicate 32 0 := by
      simpa [canonicalEx] using hbs
    rw [this]
    rfl
  exact ⟨hlen, decodeCommitment_left_inverse canonicalEx hlen commitmentEx⟩

/-- Claim C5 counterexample: the claim says GetInfo carries no payload,
but the GetInfo frame built in `main` carries the single byte `0x00`. -/
theorem getInfoCommand_payload_not_empty :
    getInfoCommand.data = [0] ∧ getInfoCommand.data ≠ [] := by decide

/-- Claim C5 (amended): every frame carries instructionClass `0x80` and
instruction codes `0x01`-`0x04`; the payloads are a single zero byte for
GetInfo, the 32-byte challenge for Authenticate, the 8-byte little-endian
encoding of the value 60 for Commit, and a single zero byte for
Terminate. -/
theorem command_frames_layout (challenge : List Nat)
    (h : challenge.length = 32) :
    getInfoCommand = ⟨0x80, 0x01, 0x00, 0x00, [0]⟩
    ∧ authenticateCommand challenge = ⟨0x80, 0x02, 0x00, 0x00, challenge⟩
    ∧ (authenticateCommand challenge).data.length = 32
    ∧ commitCommand = ⟨0x80, 0x03, 0x00, 0x00, [60, 0, 0, 0, 0, 0, 0, 0]⟩
    ∧ commitCommand.data = leBytes 8 60
    ∧ commitCommand.data.length = 8
    ∧ terminateCommand = ⟨0x80, 0x04, 0x00, 0x00, [0]⟩ :=
  ⟨rfl, rfl, h, by decide, rfl, by decide, rfl⟩

/-- Witness for claim C5's amended theorem at the 32-byte challenge
`challengeEx`. -/
theorem command_frames_layout_witness :
    challengeEx.length = 32
    ∧ (getInfoCommand = ⟨0x80, 0x01, 0x00, 0x00, [0]⟩
      ∧ authenticateCommand challengeEx = ⟨0x80, 0x02, 0x00, 0x00, challengeEx⟩
      ∧ (authenticateCommand challengeEx).data.length = 32
      ∧ commitCommand = ⟨0x80, 0x03, 0x00, 0x00, [60, 0, 0, 0, 0, 0, 0, 0]⟩
      ∧ commitCommand.data = leBytes 8 60
      ∧ commitCommand.data.length = 8
      ∧ terminateCommand = ⟨0x80, 0x04, 0x00, 0x00, [0]⟩) :=
  ⟨by decide, command_frames_layout challengeEx (by decide)⟩

/-- Claim C2 counterexample: on the reply `[0x00, 0x05, 0x41]` the
declared name length 5 exceeds the single remaining byte; the code does
not return `MalformedResponse` — it panics on the out-of-range slice
`&data[2..7]`. -/
theorem parseGetInfo_overlong_not_malformed :
    parseGetInfo [0x00, 0x05, 0x41] = .error .slicePanic
    ∧ parseGetInfo [0x00, 0x05, 0x41] ≠ .error .malformedResponse := by decide

/-- Claim C2 (amended): the GetInfo parse performs no validation of the
declared length fields — a declared name length exceeding the remaining
payload makes the code panic on the out-of-range name slice, a declared
package length exceeding the remaining payload makes it panic on the
out-of-range package slice, and no input whatsoever produces a
`MalformedResponse` error. -/
theorem parseGetInfo_overlong_length_panics (data : List Nat) (dataLen : Nat)
    (h1 : data.get? 1 = some dataLen) :
    (data.length < dataLen + 2 → parseGetInfo data = .error .slicePanic)
    ∧ (∀ nameBytes packageLen,
        sliceRange data 2 (dataLen + 2) = some nameBytes →
        utf8Valid nameBytes = true →
        data.get? (dataLen + 2) = some packageLen →
        data.length < dataLen + packageLen + 3 →
        parseGetInfo data = .error .slicePanic)
    ∧ (∀ d, parseGetInfo d ≠ .error .malformedResponse) := by
  refine ⟨?_, ?_, ?_⟩
  · intro h2
    have hs : sliceRange data 2 (dataLen + 2) = none := by
      unfold sliceRange
      rw [if_neg]
      omega
    unfold parseGetInfo
    rw [h1]
    simp [hs]
  · intro nameBytes packageLen hname hutf hplen h2
    have hs : sliceRange data (dataLen + 3) (dataLen + packageLen + 3) = none := by
      unfold sliceRange
      rw [if_neg]
      omega
    have hplen2 : data[dataLen + 2]? = some packageLen := by
      simpa using hplen
    unfold parseGetInfo
    rw [h1]
    simp [hname, hutf, hplen2, hs]
  · intro d hd
    unfold parseGetInfo at hd
    repeat' split at hd
    all_goals simp_all

/-- Witness for claim C2's amended theorem: the reply `[0x00, 0x05, 0x41]`
panics on the overlong name slice and the reply `[0x00, 0x01, 0x41, 0x05]`
panics on the overlong package slice. -/
theorem parseGetInfo_overlong_length_panics_witness :
    (([0x00, 0x05, 0x41] : List Nat).get? 1 = some 5
      ∧ parseGetInfo [0x00, 0x05, 0x41] = .error .slicePanic)
    ∧ (([0x00, 0x01, 0x41, 0x05] : List Nat).get? 1 = some 1
      ∧ parseGetInfo [0x00, 0x01, 0x41, 0x05] = .error .slicePanic) :=
  ⟨⟨by decide,
    (parseGetInfo_overlong_length_panics [0x00, 0x05, 0x41] 5 (by decide)).1
      (by decide)⟩,
   ⟨by decide,
    (parseGetInfo_overlong_length_panics [0x00, 0x01, 0x41, 0x05] 1
      (by decide)).2.1 [0x41] 5 (by decide) (by decide) (by decide) (by decide)⟩⟩

/-- Claim C3 counterexample: a GetInfo reply whose name field is the
invalid UTF-8 byte `0xFF` makes the program panic on
`from_utf8(..).unwrap()` instead of returning a typed `InvalidEncoding`
failure. -/
theorem mainRun_invalid_utf8_panics :
    mainRun cryptoEx deviceBadUtf8 challengeEx
      = ⟨[getInfoCommand], .panicked .utf8Panic⟩ := by decide

/-- Claim C3 (amended): only the initial GetInfo send failure is handled
without aborting (the error is printed and `main` returns), and the
Terminate exchange is matched on both arms so the run finishes regardless
of its reply; every other failure panics the process instead of returning
a typed error: a GetInfo reply that is too short, declares out-of-range
lengths or contains invalid UTF-8; a transport error on the Authenticate
or Commit exchange; an Authenticate or Commit reply too short for its
fixed-width fields; non-canonical public-key, signature-scalar, nonce,
digest-scalar or commitment bytes; and a challenge whose length is not
32. -/
theorem mainRun_panics_on_every_failure (c : Crypto) (d : Device)
    (ch : List Nat) :
    (d.getInfoResp = .error () →
      mainRun c d ch = ⟨[getInfoCommand], .earlyReturn⟩)
    ∧ ∀ info, d.getInfoResp = .ok info →
      (∀ e, parseGetInfo info = .error e →
        mainRun c d ch = ⟨[getInfoCommand], .panicked e⟩)
      ∧ ∀ v, parseGetInfo info = .ok v →
        (d.authResp = .error () →
          mainRun c d ch = ⟨[getInfoCommand, authenticateCommand ch],
            .panicked .transportPanic⟩)
        ∧ ∀ r2, d.authResp = .ok r2 →
          (sliceRange r2 1 33 = none →
            mainRun c d ch = ⟨[getInfoCommand, authenticateCommand ch],
              .panicked .slicePanic⟩)
          ∧ ∀ pk, sliceRange r2 1 33 = some pk →
            (c.pkCanonical pk = false →
              mainRun c d ch = ⟨[getInfoCommand, authenticateCommand ch],
                .panicked .decodePanic⟩)
            ∧ (c.pkCanonical pk = true →
              (sliceRange r2 33 65 = none →
                mainRun c d ch = ⟨[getInfoCommand, authenticateCommand ch],
                  .panicked .slicePanic⟩)
              ∧ ∀ sig, sliceRange r2 33 65 = some sig →
                (c.skCanonical sig = false →
                  mainRun c d ch = ⟨[getInfoCommand, authenticateCommand ch],
                    .panicked .decodePanic⟩)
                ∧ (c.skCanonical sig = true →
                  (sliceRange r2 65 97 = none →
                    mainRun c d ch = ⟨[getInfoCommand, authenticateCommand ch],
                      .panicked .slicePanic⟩)
                  ∧ ∀ nonce, sliceRange r2 65 97 = some nonce →
                    (c.pkCanonical nonce = false →
                      mainRun c d ch = ⟨[getInfoCommand, authenticateCommand ch],
                        .panicked .decodePanic⟩)
                    ∧ (c.pkCanonical nonce = true →
                      (ch.length ≠ 32 →
                        mainRun c d ch = ⟨[getInfoCommand, authenticateCommand ch],
                          .panicked .slicePanic⟩)
                      ∧ (ch.length = 32 →
                        (c.skCanonical (authDigest c pk nonce ch) = false →
                          mainRun c d ch = ⟨[getInfoCommand, authenticateCommand ch],
                            .panicked .decodePanic⟩)
                        ∧ (c.skCanonical (authDigest c pk nonce ch) = true →
                          (d.commitResp = .error () →
                            mainRun c d ch = ⟨[getInfoCommand,
                              authenticateCommand ch, commitCommand],
                              .panicked .transportPanic⟩)
                          ∧ ∀ r3, d.commitResp = .ok r3 →
                            (sliceRange r3 1 33 = none →
                              mainRun c d ch = ⟨[getInfoCommand,
                                authenticateCommand ch, commitCommand],
                                .panicked .slicePanic⟩)
                            ∧ ∀ cm, sliceRange r3 1 33 = some cm →
                              (c.commitCanonical cm = false →
                                mainRun c d ch = ⟨[getInfoCommand,
                                  authenticateCommand ch, commitCommand],
                                  .panicked .decodePanic⟩)
                              ∧ (c.commitCanonical cm = true → ∀ tr,
                                mainRun c
                                  ⟨d.getInfoResp, d.authResp, d.commitResp, tr⟩ ch
                                  = ⟨[getInfoCommand, authenticateCommand ch,
                                      commitCommand, terminateCommand],
                                      .finished (c.verify pk
                                        (authDigest c pk nonce ch) nonce
                                        sig)⟩)))))) := by
  constructor
  · intro h
    simp [mainRun, h]
  intro info hinfo
  constructor
  · intro e he
    simp [mainRun, *]
  intro v hv
  constructor
  · intro h
    simp [mainRun, *]
  intro r2 hr2
  constructor
  · intro h
    simp [mainRun, *]
  intro pk hpk
  constructor
  · intro h
    simp [mainRun, *]
  intro hpkT
  constructor
  · intro h
    simp [mainRun, *]
  intro sig hsig
  constructor
  · intro h
    simp [mainRun, *]
  intro hsigT
  constructor
  · intro h
    simp [mainRun, *]
  intro nonce hnonce
  constructor
  · intro h
    simp [mainRun, *]
  intro hnonceT
  constructor
  · intro h
    simp [mainRun, *]
  intro hlen
  constructor
  · intro h
    simp [mainRun, *]
  intro hdsT
  constructor
  · intro h
    simp [mainRun, *]
  intro r3 hr3
  constructor
  · intro h
    simp [mainRun, *]
  intro cm hcm
  constructor
  · intro h
    simp [mainRun, *]
  intro hcmT tr
  simp [mainRun, *]

/-- Witness for claim C3's amended theorem: a transport error on the
Authenticate exchange panics, a transport error on the Commit exchange
panics after 3 sends, and non-canonical public-key bytes panic at the
decode. -/
theorem mainRun_panics_on_every_failure_witness :
    mainRun cryptoEx deviceAuthErr challengeEx
      = ⟨[getInfoCommand, authenticateCommand challengeEx],
          .panicked .transportPanic⟩
    ∧ mainRun cryptoEx deviceCommitErr challengeEx
      = ⟨[getInfoCommand, authenticateCommand challengeEx, commitCommand],
          .panicked .transportPanic⟩
    ∧ mainRun cryptoNoDecode deviceEx challengeEx
      = ⟨[getInfoCommand, authenticateCommand challengeEx],
          .panicked .decodePanic⟩ := by
  refine ⟨?_, ?_, ?_⟩
  · exact (((mainRun_panics_on_every_failure cryptoEx deviceAuthErr
      challengeEx).2 infoRespEx rfl).2 (strBytes "Test", strBytes "1.0")
      (by rfl)).1 rfl
  · exact ((((((((((((mainRun_panics_on_every_failure cryptoEx deviceCommitErr
      challengeEx).2 infoRespEx rfl).2 (strBytes "Test", strBytes "1.0")
      (by rfl)).2 (List.replicate 97 1) rfl).2 (List.replicate 32 1)
      (by decide)).2 rfl).2 (List.replicate 32 1) (by decide)).2 rfl).2
      (List.replicate 32 1) (by decide)).2 rfl).2 (by decide)).2 rfl).1 rfl
  · exact (((((mainRun_panics_on_every_failure cryptoNoDecode deviceEx
      challengeEx).2 infoRespEx rfl).2 (strBytes "Test", strBytes "1.0")
      (by rfl)).2 (List.replicate 97 1) rfl).2 (List.replicate 32 1)
      (by decide)).1 rfl

/-- Claim C1 counterexample: with a device returning well-formed replies
and Schnorr verification reporting `false`, the run does not stop — it
still performs the Commit exchange and ends having printed `false`, with
no failure state at all. -/
theorem mainRun_verification_false_still_commits :
    (mainRun cryptoEx deviceEx challengeEx).outcome = .finished false
    ∧ commitCommand ∈ (mainRun cryptoEx deviceEx challengeEx).sent := by decide

/-- Claim C1 (amended): the Schnorr verification result is computed and
printed but never branched on — whenever the run reaches the end of
`main` (with the verification boolean `b`, true or false), the Commit
exchange was performed. -/
theorem mainRun_commits_regardless_of_verification (c : Crypto) (d : Device)
    (ch : List Nat) (b : Bool)
    (h : (mainRun c d ch).outcome = .finished b) :
    commitCommand ∈ (mainRun c d ch).sent := by
  simp only [mainRun] at h ⊢
  repeat' split at h
  all_goals simp_all

/-- Witness for claim C1's amended theorem at the concrete run that ends
with verification `false`. -/
theorem mainRun_commits_regardless_of_verification_witness :
    (mainRun cryptoEx deviceEx challengeEx).outcome = .finished false
    ∧ commitCommand ∈ (mainRun cryptoEx deviceEx challengeEx).sent :=
  ⟨by decide,
    mainRun_commits_regardless_of_verification cryptoEx deviceEx challengeEx
      false (by decide)⟩





